import Mathlib

/-!
Verification of the hybrid retrieval-and-reranking engine in `rag_tool.py`
(`RAGSearchTool._run`, the lazy model-cache accessors, and
`clear_model_cache`), shallowly embedded in Lean.

Python values that can sit in a chunk's metadata dict are modelled by
`PyVal`; metadata dicts by association lists with first-match lookup
(Python dicts have unique keys). External heavy objects (embedding model,
FAISS store, cross-encoder, BM25 retriever) are modelled as opaque `Nat`
identifiers: constructing one from scratch allocates a fresh identifier,
loading from the disk cache returns the stored identifier. The
cross-encoder `predict` is an arbitrary function parameter, and the number
of times `_run` invokes it is returned explicitly by the reranking step.
Python `sorted(..., reverse=True)` over `(score, Document)` tuples is
modelled as a stable descending insertion sort in the `Except` monad:
comparing two tuples with equal scores falls through to comparing the
`Document` objects, which defines no ordering, so the comparison raises
(`TypeError`), exactly as CPython does whenever two equal-score tuples are
compared.
-/

namespace MitrPhol

/-- A Python value that can appear in chunk metadata: either a string or a
list of strings (the preprocessing pipeline stores the category as a list,
`chunk.metadata["category"] = categories`). -/
inductive PyVal where
  | pstr (s : String)
  | plist (l : List String)
deriving Repr, DecidableEq

/-- A chunk metadata dict, as an association list with unique keys. -/
abbrev Metadata := List (String × PyVal)

/-- Python `dict.get(k)`: the value at key `k`, or `None` when absent. -/
def dictGet (m : Metadata) (k : String) : Option PyVal :=
  match m with
  | [] => none
  | (k₀, v) :: rest => if k₀ = k then some v else dictGet rest k

/-- A langchain `Document`: `page_content` plus a metadata dict. -/
structure Document where
  page_content : String
  metadata : Metadata
deriving Repr, DecidableEq

/-- Python `==` between `metadata.get("category")` (which is `None`, a
`str`, or a `list`) and a `str` filter value: only a `str` can compare
equal to a `str`; `None == s` and `list == s` are `False`. -/
def pyEqStr : Option PyVal → String → Bool
  | none, _ => false
  | some (PyVal.pstr t), s => t == s
  | some (PyVal.plist _), _ => false

/-- The predicate of the filtering list comprehension in `_run`:
`doc.metadata.get("category") == category`. -/
def matchesCategory (c : String) (d : Document) : Bool :=
  pyEqStr (dictGet d.metadata "category") c

/-- Step 2 of `RAGSearchTool._run`: `if category:` (Python truthiness, so
`None` and `""` skip the filter) then
`candidates = [doc for doc in candidates if doc.metadata.get("category") == category]`. -/
def categoryFilterStep (category : Option String) (candidates : List Document) :
    List Document :=
  match category with
  | none => candidates
  | some c => if c = "" then candidates else candidates.filter (matchesCategory c)

/-- CPython comparison of two `(score, Document)` tuples, as used by
`sorted(zip(scores, candidates), reverse=True)`: compare scores first; on a
tie fall through to `Document < Document`, which raises `TypeError` because
`Document` defines no ordering. Returns whether `a` sorts strictly before
`b` in descending order. -/
def pairGt (a b : Int × Document) : Except String Bool :=
  if b.1 < a.1 then .ok true
  else if a.1 < b.1 then .ok false
  else .error "TypeError: comparison not supported between Document instances"

/-- Insert one tuple into a descending-sorted list, raising when a
comparison between equal-score tuples occurs. -/
def insertPairDesc (x : Int × Document) :
    List (Int × Document) → Except String (List (Int × Document))
  | [] => .ok [x]
  | y :: ys =>
    match pairGt x y with
    | .error e => .error e
    | .ok true => .ok (x :: y :: ys)
    | .ok false =>
      match insertPairDesc x ys with
      | .error e => .error e
      | .ok r => .ok (y :: r)

/-- Python `sorted(pairs, reverse=True)` on `(score, Document)` tuples:
a stable descending sort that raises as soon as two equal-score tuples are
compared (their `Document` components are unorderable). -/
def pySortedRev : List (Int × Document) → Except String (List (Int × Document))
  | [] => .ok []
  | x :: xs =>
    match pySortedRev xs with
    | .error e => .error e
    | .ok r => insertPairDesc x r

/-- Step 3 of `RAGSearchTool._run`:
`if candidates:` build `(query, page_content)` pairs, call
`self.cross_encoder.predict(pairs)` once, sort `zip(scores, candidates)`
in reverse, and keep `reranked[:4]`; `else: top_docs = []`. The second
component counts how many times the cross-encoder model was invoked. -/
def rerankStep (predict : List (String × String) → List Int) (query : String)
    (candidates : List Document) : Except String (List Document × Nat) :=
  if candidates.isEmpty then .ok ([], 0)
  else
    let pairs := candidates.map (fun d => (query, d.page_content))
    let scores := predict pairs
    match pySortedRev (scores.zip candidates) with
    | .error e => .error e
    | .ok reranked => .ok ((reranked.map Prod.snd).take 4, 1)

/-- Python `repr` of a string (quotes it; escaping of inner quotes is not
modelled, no modelled string contains a quote). -/
def pyStrRepr (s : String) : String := "\x27" ++ s ++ "\x27"

/-- Python `repr` of a metadata value. -/
def PyVal.pyRepr : PyVal → String
  | .pstr s => pyStrRepr s
  | .plist l => "[" ++ String.intercalate ", " (l.map pyStrRepr) ++ "]"

/-- Python `str(d.metadata)`: the dict repr interpolated by the f-string. -/
def metadataRepr (m : Metadata) : String :=
  "\x7b" ++ String.intercalate ", " (m.map (fun p => pyStrRepr p.1 ++ ": " ++ p.2.pyRepr)) ++ "\x7d"

/-- Python `s[:n]`: the first `n` characters (code points) of `s`. -/
def pySlice (s : String) (n : Nat) : String := ⟨s.data.take n⟩

/-- One rendered entry of step 4 of `_run`:
`f"[{i+1}] {d.page_content[:400]}... (source: {d.metadata})"` for the
0-based position `i`. The ellipsis is part of the literal template, so it
is appended whether or not the slice truncated anything. -/
def entryFor (i : Nat) (d : Document) : String :=
  "[" ++ toString (i + 1) ++ "] " ++ pySlice d.page_content 400 ++
    "... (source: " ++ metadataRepr d.metadata ++ ")"

/-- Step 4 of `RAGSearchTool._run`: `if not top_docs: return
"No relevant documents found."` else join the numbered entries with blank
lines. -/
def formatResults (top_docs : List Document) : String :=
  if top_docs.isEmpty then "No relevant documents found."
  else String.intercalate "\n\n" (top_docs.enum.map (fun p => entryFor p.1 p.2))

/-- `RAGSearchTool._run query category`, given the candidate list returned
by `self.hybrid_retriever.get_relevant_documents(query)` (an external
retriever, passed as `retrieved`) and the cross-encoder scoring function
`predict`: filter by category, rerank, truncate to 4, format. -/
def runSearch (predict : List (String × String) → List Int)
    (retrieved : List Document) (query : String) (category : Option String) :
    Except String String :=
  let candidates := categoryFilterStep category retrieved
  match rerankStep predict query candidates with
  | .error e => .error e
  | .ok (top_docs, _) => .ok (formatResults top_docs)

/-! ### Concrete documents used as test inputs -/

/-- A chunk whose metadata carries the label "ศัตรูพืช" inside its
category *list*, exactly as `build_rag_with_metadata.py` stores it
(`chunk.metadata["category"] = categories`, a list). -/
def pestChunk : Document :=
  { page_content := "การป้องกันศัตรูพืชในไร่อ้อย"
    metadata := [("filename", .pstr "pest.pdf"),
                 ("category", .plist ["ศัตรูพืช", "โรคอ้อย"]),
                 ("source", .pstr "กรมวิชาการเกษตร")] }

/-- A chunk whose category metadata is the single string "โรคอ้อย". -/
def diseaseChunk : Document :=
  { page_content := "โรคใบเหลืองในอ้อยเกิดจากเชื้อรา"
    metadata := [("category", .pstr "โรคอ้อย")] }

/-- A second distinct chunk with a string category. -/
def soilChunk : Document :=
  { page_content := "การปรับปรุงดินสำหรับปลูกอ้อย"
    metadata := [("category", .pstr "ดิน")] }

/-- A chunk with a short text (3 characters, far below the 400-character
budget). -/
def shortChunk : Document :=
  { page_content := "abc"
    metadata := [("source", .pstr "s.pdf")] }

/-! ### Lemmas about the modelled Python sort -/

lemma insertPairDesc_length (x : Int × Document) :
    ∀ {l r : List (Int × Document)}, insertPairDesc x l = .ok r →
      r.length = l.length + 1 := by
  intro l
  induction l with
  | nil =>
    intro r h
    simp only [insertPairDesc, Except.ok.injEq] at h
    simp [← h]
  | cons y ys ih =>
    intro r h
    simp only [insertPairDesc] at h
    cases hg : pairGt x y with
    | error e => rw [hg] at h; exact absurd h (by simp)
    | ok b =>
      rw [hg] at h
      cases b with
      | true =>
        simp only [Except.ok.injEq] at h
        simp [← h]
      | false =>
        cases hrec : insertPairDesc x ys with
        | error e => rw [hrec] at h; exact absurd h (by simp)
        | ok r₀ =>
          rw [hrec] at h
          simp only [Except.ok.injEq] at h
          simp [← h, ih hrec]

lemma pySortedRev_length :
    ∀ {l r : List (Int × Document)}, pySortedRev l = .ok r → r.length = l.length := by
  intro l
  induction l with
  | nil =>
    intro r h
    simp only [pySortedRev, Except.ok.injEq] at h
    simp [← h]
  | cons x xs ih =>
    intro r h
    simp only [pySortedRev] at h
    cases hrec : pySortedRev xs with
    | error e => rw [hrec] at h; exact absurd h (by simp)
    | ok r₀ =>
      rw [hrec] at h
      rw [insertPairDesc_length x h, ih hrec]
      rfl

lemma insertPairDesc_ok_of_ne (x : Int × Document) :
    ∀ l : List (Int × Document), (∀ y ∈ l, y.1 ≠ x.1) →
      ∃ r, insertPairDesc x l = .ok r ∧ ∀ z ∈ r, z = x ∨ z ∈ l := by
  intro l
  induction l with
  | nil => exact fun _ => ⟨[x], rfl, by simp⟩
  | cons y ys ih =>
    intro h
    have hy : y.1 ≠ x.1 := h y (List.mem_cons_self y ys)
    rcases lt_trichotomy y.1 x.1 with hlt | heq | hgt
    · refine ⟨x :: y :: ys, ?_, ?_⟩
      · simp [insertPairDesc, pairGt, hlt]
      · intro z hz
        simp only [List.mem_cons] at hz ⊢
        tauto
    · exact absurd heq hy
    · obtain ⟨r, hr, hm⟩ := ih (fun z hz => h z (List.mem_cons_of_mem y hz))
      have hnlt : ¬ y.1 < x.1 := lt_asymm hgt
      refine ⟨y :: r, ?_, ?_⟩
      · simp [insertPairDesc, pairGt, hnlt, hgt, hr]
      · intro z hz
        simp only [List.mem_cons] at hz ⊢
        rcases hz with rfl | hz
        · tauto
        · rcases hm z hz with rfl | hz₀ <;> tauto

lemma pySortedRev_ok_of_pairwise :
    ∀ l : List (Int × Document), (l.map Prod.fst).Pairwise (· ≠ ·) →
      ∃ r, pySortedRev l = .ok r ∧ ∀ z ∈ r, z ∈ l := by
  intro l
  induction l with
  | nil => exact fun _ => ⟨[], rfl, by simp⟩
  | cons x xs ih =>
    intro h
    rw [List.map_cons, List.pairwise_cons] at h
    obtain ⟨hx, hxs⟩ := h
    obtain ⟨r, hr, hm⟩ := ih hxs
    have hne : ∀ y ∈ r, y.1 ≠ x.1 := fun y hy =>
      (hx y.1 (List.mem_map_of_mem Prod.fst (hm y hy))).symm
    obtain ⟨r₁, hr₁, hm₁⟩ := insertPairDesc_ok_of_ne x r hne
    refine ⟨r₁, ?_, ?_⟩
    · simp [pySortedRev, hr, hr₁]
    · intro z hz
      rcases hm₁ z hz with rfl | hz₀
      · exact List.mem_cons_self z xs
      · exact List.mem_cons_of_mem x (hm z hz₀)

/-! ### The model-cache state machine

The module-level globals of `rag_tool.py` (`_embeddings_model`,
`_faiss_store`, `_cross_encoder`, `_bm25_retriever`, `_all_chunks`) and the
four pickle cache files are modelled by `PState`. The heavy artifacts are
opaque: building one from scratch allocates the fresh identifier `nextId`
and bumps the per-artifact build counter; a successful `pickle.load` from a
disk cache returns the identifier stored there; `pickle.dump` stores the
identifier. `_all_chunks` is derived from the FAISS store by a similarity
search, modelled as carrying the store's identifier. -/

/-- The process-wide state of `rag_tool.py`: the five lazy globals, the
four on-disk cache files, a fresh-identifier supply, and one
from-scratch-build counter per artifact. -/
structure PState where
  mem_embeddings : Option Nat
  mem_faiss : Option Nat
  mem_cross : Option Nat
  mem_bm25 : Option Nat
  mem_chunks : Option Nat
  disk_embeddings : Option Nat
  disk_faiss : Option Nat
  disk_cross : Option Nat
  disk_bm25 : Option Nat
  nextId : Nat
  buildE : Nat
  buildF : Nat
  buildC : Nat
  buildB : Nat
deriving Repr, DecidableEq

/-- `get_embeddings_model()`: return the global if set; else load from the
disk cache if present; else build from scratch (HuggingFace download),
store it in the global and on disk. -/
def get_embeddings_model (s : PState) : Nat × PState :=
  match s.mem_embeddings with
  | some m => (m, s)
  | none =>
    match s.disk_embeddings with
    | some d => (d, { s with mem_embeddings := some d })
    | none =>
      (s.nextId, { s with
        mem_embeddings := some s.nextId,
        disk_embeddings := some s.nextId,
        nextId := s.nextId + 1,
        buildE := s.buildE + 1 })

/-- `get_faiss_store()`: return the global if set; else (after ensuring
the embeddings model) load from the disk cache — recomputing `_all_chunks`
if it is unset — or build from scratch, which always recomputes
`_all_chunks` and writes the disk cache. -/
def get_faiss_store (s : PState) : Nat × PState :=
  match s.mem_faiss with
  | some m => (m, s)
  | none =>
    let s₁ := (get_embeddings_model s).2
    match s₁.disk_faiss with
    | some d =>
      let s₂ := { s₁ with mem_faiss := some d }
      (d, if s₂.mem_chunks.isSome then s₂ else { s₂ with mem_chunks := some d })
    | none =>
      (s₁.nextId, { s₁ with
        mem_faiss := some s₁.nextId,
        mem_chunks := some s₁.nextId,
        disk_faiss := some s₁.nextId,
        nextId := s₁.nextId + 1,
        buildF := s₁.buildF + 1 })

/-- `get_cross_encoder()`: return the global if set; else load from the
disk cache if present; else build from scratch and cache. -/
def get_cross_encoder (s : PState) : Nat × PState :=
  match s.mem_cross with
  | some m => (m, s)
  | none =>
    match s.disk_cross with
    | some d => (d, { s with mem_cross := some d })
    | none =>
      (s.nextId, { s with
        mem_cross := some s.nextId,
        disk_cross := some s.nextId,
        nextId := s.nextId + 1,
        buildC := s.buildC + 1 })

/-- `get_bm25_retriever()`: return the global if set; else ensure
`_all_chunks` via `get_faiss_store()`, then load from the disk cache or
build from the chunks from scratch and cache. -/
def get_bm25_retriever (s : PState) : Nat × PState :=
  match s.mem_bm25 with
  | some m => (m, s)
  | none =>
    let s₁ := if s.mem_chunks.isSome then s else (get_faiss_store s).2
    match s₁.disk_bm25 with
    | some d => (d, { s₁ with mem_bm25 := some d })
    | none =>
      (s₁.nextId, { s₁ with
        mem_bm25 := some s₁.nextId,
        disk_bm25 := some s₁.nextId,
        nextId := s₁.nextId + 1,
        buildB := s₁.buildB + 1 })

/-- `clear_model_cache()`: set all five globals to `None` and unlink all
four cache files. -/
def clear_model_cache (s : PState) : PState :=
  { s with
    mem_embeddings := none, mem_faiss := none, mem_cross := none,
    mem_bm25 := none, mem_chunks := none,
    disk_embeddings := none, disk_faiss := none,
    disk_cross := none, disk_bm25 := none }

/-- One accessor call, return value discarded. -/
inductive CacheOp where
  | opE
  | opF
  | opC
  | opB
deriving Repr, DecidableEq

/-- Apply one accessor call to the process state. -/
def CacheOp.apply : CacheOp → PState → PState
  | .opE, s => (get_embeddings_model s).2
  | .opF, s => (get_faiss_store s).2
  | .opC, s => (get_cross_encoder s).2
  | .opB, s => (get_bm25_retriever s).2

/-- Run a sequence of accessor calls. -/
def runOps : List CacheOp → PState → PState
  | [], s => s
  | o :: os, s => runOps os (o.apply s)

/-- The class-level lazy caches of `RAGSearchTool` (`_embeddings`,
`_vectorstore`, `_cross_encoder`, `_bm25`, `_dense`,
`_hybrid_retriever`). -/
structure ToolCache where
  t_embeddings : Option Nat
  t_vectorstore : Option Nat
  t_cross_encoder : Option Nat
  t_bm25 : Option Nat
  t_dense : Option Nat
  t_hybrid : Option Nat
deriving Repr, DecidableEq

/-- The `RAGSearchTool.embeddings` property: return the class-level cache
if set, else fill it from `get_embeddings_model()`. -/
def prop_embeddings : ToolCache × PState → Nat × ToolCache × PState
  | (t, s) =>
    match t.t_embeddings with
    | some m => (m, t, s)
    | none =>
      let r := get_embeddings_model s
      (r.1, { t with t_embeddings := some r.1 }, r.2)

/-- The `RAGSearchTool.vectorstore` property. -/
def prop_vectorstore : ToolCache × PState → Nat × ToolCache × PState
  | (t, s) =>
    match t.t_vectorstore with
    | some m => (m, t, s)
    | none =>
      let r := get_faiss_store s
      (r.1, { t with t_vectorstore := some r.1 }, r.2)

/-- The `RAGSearchTool.cross_encoder` property. -/
def prop_cross_encoder : ToolCache × PState → Nat × ToolCache × PState
  | (t, s) =>
    match t.t_cross_encoder with
    | some m => (m, t, s)
    | none =>
      let r := get_cross_encoder s
      (r.1, { t with t_cross_encoder := some r.1 }, r.2)

/-- The `RAGSearchTool.bm25` property. -/
def prop_bm25 : ToolCache × PState → Nat × ToolCache × PState
  | (t, s) =>
    match t.t_bm25 with
    | some m => (m, t, s)
    | none =>
      let r := get_bm25_retriever s
      (r.1, { t with t_bm25 := some r.1 }, r.2)

/-! ### Preservation lemmas for the cache accessors -/

/-- From `s` to `s'`, every artifact that was loaded stays loaded with the
identical instance, and its from-scratch-build counter does not move. -/
def Keeps (s s' : PState) : Prop :=
  (∀ m, s.mem_embeddings = some m → s'.mem_embeddings = some m ∧ s'.buildE = s.buildE) ∧
  (∀ m, s.mem_faiss = some m → s'.mem_faiss = some m ∧ s'.buildF = s.buildF) ∧
  (∀ m, s.mem_cross = some m → s'.mem_cross = some m ∧ s'.buildC = s.buildC) ∧
  (∀ m, s.mem_bm25 = some m → s'.mem_bm25 = some m ∧ s'.buildB = s.buildB)

lemma keeps_refl (s : PState) : Keeps s s :=
  ⟨fun _ hm => ⟨hm, rfl⟩, fun _ hm => ⟨hm, rfl⟩, fun _ hm => ⟨hm, rfl⟩,
   fun _ hm => ⟨hm, rfl⟩⟩

lemma keeps_trans {s₁ s₂ s₃ : PState} (h₁ : Keeps s₁ s₂) (h₂ : Keeps s₂ s₃) :
    Keeps s₁ s₃ := by
  obtain ⟨e₁, f₁, c₁, b₁⟩ := h₁
  obtain ⟨e₂, f₂, c₂, b₂⟩ := h₂
  refine ⟨fun m hm => ?_, fun m hm => ?_, fun m hm => ?_, fun m hm => ?_⟩
  · obtain ⟨ha, hb⟩ := e₁ m hm
    obtain ⟨hc, hd⟩ := e₂ m ha
    exact ⟨hc, hd.trans hb⟩
  · obtain ⟨ha, hb⟩ := f₁ m hm
    obtain ⟨hc, hd⟩ := f₂ m ha
    exact ⟨hc, hd.trans hb⟩
  · obtain ⟨ha, hb⟩ := c₁ m hm
    obtain ⟨hc, hd⟩ := c₂ m ha
    exact ⟨hc, hd.trans hb⟩
  · obtain ⟨ha, hb⟩ := b₁ m hm
    obtain ⟨hc, hd⟩ := b₂ m ha
    exact ⟨hc, hd.trans hb⟩

lemma getE_keeps (s : PState) : Keeps s (get_embeddings_model s).2 := by
  obtain ⟨mE, mF, mC, mB, mCh, dE, dF, dC, dB, nid, bE, bF, bC, bB⟩ := s
  cases mE <;> cases dE <;> simp [get_embeddings_model, Keeps]

lemma getF_keeps (s : PState) : Keeps s (get_faiss_store s).2 := by
  obtain ⟨mE, mF, mC, mB, mCh, dE, dF, dC, dB, nid, bE, bF, bC, bB⟩ := s
  cases mF <;> cases mE <;> cases dE <;> cases dF <;> cases mCh <;>
    simp [get_faiss_store, get_embeddings_model, Keeps]

lemma getC_keeps (s : PState) : Keeps s (get_cross_encoder s).2 := by
  obtain ⟨mE, mF, mC, mB, mCh, dE, dF, dC, dB, nid, bE, bF, bC, bB⟩ := s
  cases mC <;> cases dC <;> simp [get_cross_encoder, Keeps]

lemma getB_keeps (s : PState) : Keeps s (get_bm25_retriever s).2 := by
  obtain ⟨mE, mF, mC, mB, mCh, dE, dF, dC, dB, nid, bE, bF, bC, bB⟩ := s
  cases mB <;> cases mCh <;> cases mF <;> cases mE <;> cases dE <;> cases dF <;>
    cases dB <;>
    simp [get_bm25_retriever, get_faiss_store, get_embeddings_model, Keeps]

lemma apply_keeps (o : CacheOp) (s : PState) : Keeps s (o.apply s) := by
  cases o
  · exact getE_keeps s
  · exact getF_keeps s
  · exact getC_keeps s
  · exact getB_keeps s

lemma runOps_keeps (ops : List CacheOp) (s : PState) : Keeps s (runOps ops s) := by
  induction ops generalizing s with
  | nil => exact keeps_refl s
  | cons o os ih => exact keeps_trans (apply_keeps o s) (ih (o.apply s))

lemma getE_of_mem {s : PState} {m : Nat} (h : s.mem_embeddings = some m) :
    get_embeddings_model s = (m, s) := by
  simp [get_embeddings_model, h]

lemma getF_of_mem {s : PState} {m : Nat} (h : s.mem_faiss = some m) :
    get_faiss_store s = (m, s) := by
  simp [get_faiss_store, h]

lemma getC_of_mem {s : PState} {m : Nat} (h : s.mem_cross = some m) :
    get_cross_encoder s = (m, s) := by
  simp [get_cross_encoder, h]

lemma getB_of_mem {s : PState} {m : Nat} (h : s.mem_bm25 = some m) :
    get_bm25_retriever s = (m, s) := by
  simp [get_bm25_retriever, h]

lemma getE_mem (s : PState) :
    (get_embeddings_model s).2.mem_embeddings = some (get_embeddings_model s).1 := by
  obtain ⟨mE, mF, mC, mB, mCh, dE, dF, dC, dB, nid, bE, bF, bC, bB⟩ := s
  cases mE <;> cases dE <;> simp [get_embeddings_model]

lemma getF_mem (s : PState) :
    (get_faiss_store s).2.mem_faiss = some (get_faiss_store s).1 := by
  obtain ⟨mE, mF, mC, mB, mCh, dE, dF, dC, dB, nid, bE, bF, bC, bB⟩ := s
  cases mF <;> cases mE <;> cases dE <;> cases dF <;> cases mCh <;>
    simp [get_faiss_store, get_embeddings_model]

lemma getC_mem (s : PState) :
    (get_cross_encoder s).2.mem_cross = some (get_cross_encoder s).1 := by
  obtain ⟨mE, mF, mC, mB, mCh, dE, dF, dC, dB, nid, bE, bF, bC, bB⟩ := s
  cases mC <;> cases dC <;> simp [get_cross_encoder]

lemma getB_mem (s : PState) :
    (get_bm25_retriever s).2.mem_bm25 = some (get_bm25_retriever s).1 := by
  obtain ⟨mE, mF, mC, mB, mCh, dE, dF, dC, dB, nid, bE, bF, bC, bB⟩ := s
  cases mB <;> cases mCh <;> cases mF <;> cases mE <;> cases dE <;> cases dF <;>
    cases dB <;>
    simp [get_bm25_retriever, get_faiss_store, get_embeddings_model]

/-! ### Theorems -/

/-- C1: the spec's category-filter contract says a candidate whose chunk
metadata category (a list of zero-or-more labels) contains the requested
label is kept. In the code the indexing pipeline stores the category as a
list, but `_run` filters with `doc.metadata.get("category") == category`,
a Python `==` between a list and a string, which is always `False`: at the
concrete input below, a candidate carrying "ศัตรูพืช" among its categories
is dropped and the filter returns the empty list instead of keeping it. -/
theorem C1_filter_drops_labelled_candidate :
    (dictGet pestChunk.metadata "category" = some (PyVal.plist ["ศัตรูพืช", "โรคอ้อย"]) ∧
      "ศัตรูพืช" ∈ ["ศัตรูพืช", "โรคอ้อย"]) ∧
    categoryFilterStep (some "ศัตรูพืช") [pestChunk] = [] := by
  refine ⟨⟨?_, ?_⟩, ?_⟩ <;> decide

/-- C2 (counterexample): the claim fixes the sentinel as exactly
"no relevant documents found", but at a concrete input where the category
filter leaves zero candidates the code returns
"No relevant documents found." — capitalised and with a trailing period —
which is a different string. -/
theorem C2_sentinel_counterexample :
    runSearch (fun _ => []) [diseaseChunk] "โรคใบไหม้" (some "ศัตรูพืช") =
      .ok "No relevant documents found." ∧
    "No relevant documents found." ≠ "no relevant documents found" := by
  constructor
  · rfl
  · decide

/-- C2 (amended): whenever zero candidates remain after the category
filter (and hence after reranking), `_run` returns exactly the fixed
sentinel string "No relevant documents found.", as a normal `ok` result,
not an error. -/
theorem C2_empty_gives_exact_sentinel
    (predict : List (String × String) → List Int)
    (retrieved : List Document) (query : String) (category : Option String)
    (h : categoryFilterStep category retrieved = []) :
    runSearch predict retrieved query category = .ok "No relevant documents found." := by
  simp [runSearch, h, rerankStep, formatResults]

/-- Witness for C2 (amended) at a concrete input: one candidate whose
string category "โรคอ้อย" fails the filter "ศัตรูพืช". -/
theorem C2_empty_gives_exact_sentinel_witness :
    categoryFilterStep (some "ศัตรูพืช") [diseaseChunk] = [] ∧
    runSearch (fun _ => [0]) [diseaseChunk] "อ้อย" (some "ศัตรูพืช") =
      .ok "No relevant documents found." :=
  ⟨by decide,
   C2_empty_gives_exact_sentinel (fun _ => [0]) [diseaseChunk] "อ้อย" (some "ศัตรูพืช")
     (by decide)⟩

/-- C3: with no category filter, `_run` either returns the sentinel (and
only for an empty retrieval) or the rendering of exactly the top
`min(candidates, 4)` reranked candidates — the configured top-N is the
fixed constant 4 (`reranked[:4]`), inside the claimed 3–5 range, and never
more than 4 entries are kept. `predict` is assumed to return one score per
(query, text) pair, as the cross-encoder does. -/
theorem C3_truncates_to_top_four
    (predict : List (String × String) → List Int)
    (retrieved : List Document) (query : String) (r : String)
    (hp : ∀ pairs, (predict pairs).length = pairs.length)
    (h : runSearch predict retrieved query none = .ok r) :
    (retrieved = [] ∧ r = "No relevant documents found.") ∨
    ∃ td : List Document, r = formatResults td ∧ td ≠ [] ∧
      td.length = min retrieved.length 4 ∧ td.length ≤ 4 := by
  cases retrieved with
  | nil =>
    left
    refine ⟨rfl, ?_⟩
    have h₀ : Except.ok (α := String) "No relevant documents found." = .ok r := h
    injection h₀ with h₀
    exact h₀.symm
  | cons d ds =>
    right
    cases hsort : pySortedRev
        ((predict ((d :: ds).map fun d => (query, d.page_content))).zip (d :: ds)) with
    | error e =>
      have h₀ : (Except.error e : Except String String) = .ok r := by
        rw [← h]
        simp only [runSearch, categoryFilterStep, rerankStep, List.isEmpty_cons,
          if_false, Bool.false_eq_true, hsort]
      exact absurd h₀ (by simp)
    | ok l =>
      have h₀ : (Except.ok (formatResults ((l.map Prod.snd).take 4)) :
          Except String String) = .ok r := by
        rw [← h]
        simp only [runSearch, categoryFilterStep, rerankStep, List.isEmpty_cons,
          if_false, Bool.false_eq_true, hsort]
      injection h₀ with h₀
      have hlen : l.length = (d :: ds).length := by
        have hz := pySortedRev_length hsort
        rwa [List.length_zip, hp, List.length_map, min_self] at hz
      refine ⟨(l.map Prod.snd).take 4, h₀.symm, ?_, ?_, ?_⟩
      · apply List.ne_nil_of_length_pos
        rw [List.length_take, List.length_map, hlen]
        simp
      · rw [List.length_take, List.length_map, hlen, Nat.min_comm]
      · rw [List.length_take, List.length_map]
        exact Nat.min_le_left 4 _

/-- Witness for C3 at a concrete input: one retrieved chunk, a
length-preserving scorer; the result is the single rendered entry. -/
theorem C3_truncates_to_top_four_witness :
    ([shortChunk] = [] ∧
      "[1] abc... (source: \x7b\x27source\x27: \x27s.pdf\x27\x7d)" =
        "No relevant documents found.") ∨
    ∃ td : List Document,
      "[1] abc... (source: \x7b\x27source\x27: \x27s.pdf\x27\x7d)" = formatResults td ∧
      td ≠ [] ∧ td.length = min [shortChunk].length 4 ∧ td.length ≤ 4 :=
  C3_truncates_to_top_four (fun ps => ps.map fun _ => (0 : Int)) [shortChunk] "อ้อย"
    "[1] abc... (source: \x7b\x27source\x27: \x27s.pdf\x27\x7d)"
    (fun pairs => by simp) rfl

/-- C4 (counterexample): the claim appends the ellipsis marker exactly
when the chunk text was truncated, but the f-string template appends
"..." unconditionally: a 3-character chunk (nothing truncated — the
400-character slice is the whole text) still renders with "..." after the
excerpt, and differs from the ellipsis-free rendering. -/
theorem C4_unconditional_ellipsis_counterexample :
    (pySlice shortChunk.page_content 400 = shortChunk.page_content ∧
      shortChunk.page_content.length ≤ 400) ∧
    formatResults [shortChunk] =
      "[1] abc... (source: \x7b\x27source\x27: \x27s.pdf\x27\x7d)" ∧
    formatResults [shortChunk] ≠
      "[1] abc (source: \x7b\x27source\x27: \x27s.pdf\x27\x7d)" := by
  exact ⟨⟨rfl, by decide⟩, rfl, by decide⟩

/-- C4 (amended): for every non-empty top-candidate list the formatter
joins one entry per candidate with blank lines; the entry at 0-based
position `i` is numbered `i+1`, carries the excerpt `page_content[:400]`
(whose length is at most 400 characters) with the ellipsis marker appended
unconditionally — whether or not the slice truncated anything — followed by
the chunk's metadata. -/
theorem C4_entry_format (td : List Document) (h : td ≠ []) :
    formatResults td =
      String.intercalate "\n\n" (td.enum.map fun p => entryFor p.1 p.2) ∧
    ∀ i d, td[i]? = some d →
      (td.enum.map fun p => entryFor p.1 p.2)[i]? =
        some ("[" ++ toString (i + 1) ++ "] " ++ pySlice d.page_content 400 ++
          "... (source: " ++ metadataRepr d.metadata ++ ")") ∧
      (pySlice d.page_content 400).length ≤ 400 := by
  constructor
  · cases td with
    | nil => exact absurd rfl h
    | cons d ds => simp [formatResults]
  · intro i d hd
    constructor
    · rw [List.getElem?_map, List.getElem?_enum, hd]
      simp [entryFor]
    · show (d.page_content.data.take 400).length ≤ 400
      rw [List.length_take]
      exact Nat.min_le_left 400 _

/-- Witness for C4 (amended) at the concrete singleton list. -/
theorem C4_entry_format_witness :
    formatResults [shortChunk] =
      String.intercalate "\n\n" ([shortChunk].enum.map fun p => entryFor p.1 p.2) ∧
    (([shortChunk].enum.map fun p => entryFor p.1 p.2)[0]? =
        some ("[" ++ toString (0 + 1) ++ "] " ++ pySlice shortChunk.page_content 400 ++
          "... (source: " ++ metadataRepr shortChunk.metadata ++ ")") ∧
      (pySlice shortChunk.page_content 400).length ≤ 400) :=
  ⟨(C4_entry_format [shortChunk] (by decide)).1,
   (C4_entry_format [shortChunk] (by decide)).2 0 shortChunk rfl⟩

/-- C5: on an empty candidate list the reranking step returns the empty
result immediately, with zero invocations of the cross-encoder scoring
model (the call counter is 0), for every scoring function and query. -/
theorem C5_empty_rerank_no_model_call
    (predict : List (String × String) → List Int) (query : String) :
    rerankStep predict query [] = .ok ([], 0) := rfl

/-- C6: each cached artifact (embeddings model, FAISS vector store,
cross-encoder, BM25 lexical retriever) is built at most once per process
lifetime: starting from any state, after the first accessor call for an
artifact, any further sequence of accessor calls never bumps that
artifact's from-scratch-build counter, and a subsequent accessor call for
it returns the identical already-built instance while leaving the state
unchanged (so the instance is never discarded implicitly — among the
accessors only `clear_model_cache` resets a loaded global). -/
theorem C6_artifacts_built_at_most_once (s : PState) (ops : List CacheOp) :
    (get_embeddings_model (runOps ops (get_embeddings_model s).2) =
        ((get_embeddings_model s).1, runOps ops (get_embeddings_model s).2) ∧
      (runOps ops (get_embeddings_model s).2).buildE =
        (get_embeddings_model s).2.buildE) ∧
    (get_faiss_store (runOps ops (get_faiss_store s).2) =
        ((get_faiss_store s).1, runOps ops (get_faiss_store s).2) ∧
      (runOps ops (get_faiss_store s).2).buildF = (get_faiss_store s).2.buildF) ∧
    (get_cross_encoder (runOps ops (get_cross_encoder s).2) =
        ((get_cross_encoder s).1, runOps ops (get_cross_encoder s).2) ∧
      (runOps ops (get_cross_encoder s).2).buildC =
        (get_cross_encoder s).2.buildC) ∧
    (get_bm25_retriever (runOps ops (get_bm25_retriever s).2) =
        ((get_bm25_retriever s).1, runOps ops (get_bm25_retriever s).2) ∧
      (runOps ops (get_bm25_retriever s).2).buildB =
        (get_bm25_retriever s).2.buildB) := by
  refine ⟨?_, ?_, ?_, ?_⟩
  · obtain ⟨hm, hb⟩ := (runOps_keeps ops (get_embeddings_model s).2).1
      (get_embeddings_model s).1 (getE_mem s)
    exact ⟨getE_of_mem hm, hb⟩
  · obtain ⟨hm, hb⟩ := (runOps_keeps ops (get_faiss_store s).2).2.1
      (get_faiss_store s).1 (getF_mem s)
    exact ⟨getF_of_mem hm, hb⟩
  · obtain ⟨hm, hb⟩ := (runOps_keeps ops (get_cross_encoder s).2).2.2.1
      (get_cross_encoder s).1 (getC_mem s)
    exact ⟨getC_of_mem hm, hb⟩
  · obtain ⟨hm, hb⟩ := (runOps_keeps ops (get_bm25_retriever s).2).2.2.2
      (get_bm25_retriever s).1 (getB_mem s)
    exact ⟨getB_of_mem hm, hb⟩

/-- C7: `clear_model_cache()` discards the in-memory reference of every
cached artifact (all five lazy globals become unset) and deletes every
on-disk cache file (all four), so the next access to each artifact
rebuilds it from the original source (its from-scratch-build counter is
incremented). -/
theorem C7_clear_cache_discards_and_rebuilds (s : PState) :
    (clear_model_cache s).mem_embeddings = none ∧
    (clear_model_cache s).mem_faiss = none ∧
    (clear_model_cache s).mem_cross = none ∧
    (clear_model_cache s).mem_bm25 = none ∧
    (clear_model_cache s).mem_chunks = none ∧
    (clear_model_cache s).disk_embeddings = none ∧
    (clear_model_cache s).disk_faiss = none ∧
    (clear_model_cache s).disk_cross = none ∧
    (clear_model_cache s).disk_bm25 = none ∧
    (get_embeddings_model (clear_model_cache s)).2.buildE = s.buildE + 1 ∧
    (get_faiss_store (clear_model_cache s)).2.buildF = s.buildF + 1 ∧
    (get_cross_encoder (clear_model_cache s)).2.buildC = s.buildC + 1 ∧
    (get_bm25_retriever (clear_model_cache s)).2.buildB = s.buildB + 1 := by
  simp [clear_model_cache, get_embeddings_model, get_faiss_store,
    get_cross_encoder, get_bm25_retriever]

/-- C8: `clear_model_cache()` only resets the module-level globals; the
class-level caches of `RAGSearchTool` are untouched, so a tool whose
properties were already accessed keeps returning the previously built
artifacts unchanged after invalidation — invalidation does not propagate
to existing tool objects. -/
theorem C8_clear_cache_does_not_reach_tool (t : ToolCache) (s : PState)
    (me mv mc mb : Nat)
    (hE : t.t_embeddings = some me) (hV : t.t_vectorstore = some mv)
    (hC : t.t_cross_encoder = some mc) (hB : t.t_bm25 = some mb) :
    prop_embeddings (t, clear_model_cache s) = (me, t, clear_model_cache s) ∧
    prop_vectorstore (t, clear_model_cache s) = (mv, t, clear_model_cache s) ∧
    prop_cross_encoder (t, clear_model_cache s) = (mc, t, clear_model_cache s) ∧
    prop_bm25 (t, clear_model_cache s) = (mb, t, clear_model_cache s) := by
  simp [prop_embeddings, prop_vectorstore, prop_cross_encoder, prop_bm25,
    hE, hV, hC, hB]

/-- Witness for C8 at a concrete tool cache and process state. -/
theorem C8_clear_cache_does_not_reach_tool_witness :
    prop_embeddings (⟨some 1, some 2, some 3, some 4, some 5, some 6⟩,
        clear_model_cache ⟨some 1, some 2, some 3, some 4, some 2,
          some 1, some 2, some 3, some 4, 7, 1, 1, 1, 1⟩) =
      (1, ⟨some 1, some 2, some 3, some 4, some 5, some 6⟩,
        clear_model_cache ⟨some 1, some 2, some 3, some 4, some 2,
          some 1, some 2, some 3, some 4, 7, 1, 1, 1, 1⟩) ∧
    prop_vectorstore (⟨some 1, some 2, some 3, some 4, some 5, some 6⟩,
        clear_model_cache ⟨some 1, some 2, some 3, some 4, some 2,
          some 1, some 2, some 3, some 4, 7, 1, 1, 1, 1⟩) =
      (2, ⟨some 1, some 2, some 3, some 4, some 5, some 6⟩,
        clear_model_cache ⟨some 1, some 2, some 3, some 4, some 2,
          some 1, some 2, some 3, some 4, 7, 1, 1, 1, 1⟩) ∧
    prop_cross_encoder (⟨some 1, some 2, some 3, some 4, some 5, some 6⟩,
        clear_model_cache ⟨some 1, some 2, some 3, some 4, some 2,
          some 1, some 2, some 3, some 4, 7, 1, 1, 1, 1⟩) =
      (3, ⟨some 1, some 2, some 3, some 4, some 5, some 6⟩,
        clear_model_cache ⟨some 1, some 2, some 3, some 4, some 2,
          some 1, some 2, some 3, some 4, 7, 1, 1, 1, 1⟩) ∧
    prop_bm25 (⟨some 1, some 2, some 3, some 4, some 5, some 6⟩,
        clear_model_cache ⟨some 1, some 2, some 3, some 4, some 2,
          some 1, some 2, some 3, some 4, 7, 1, 1, 1, 1⟩) =
      (4, ⟨some 1, some 2, some 3, some 4, some 5, some 6⟩,
        clear_model_cache ⟨some 1, some 2, some 3, some 4, some 2,
          some 1, some 2, some 3, some 4, 7, 1, 1, 1, 1⟩) :=
  C8_clear_cache_does_not_reach_tool
    ⟨some 1, some 2, some 3, some 4, some 5, some 6⟩
    ⟨some 1, some 2, some 3, some 4, some 2, some 1, some 2, some 3, some 4,
      7, 1, 1, 1, 1⟩
    1 2 3 4 rfl rfl rfl rfl

/-- C9: the reranking step is total when the cross-encoder scores of a
batch are pairwise distinct — sorting the `(score, document)` tuples with
`reverse=True` then succeeds for every query and candidate list — but when
two candidates receive an equal score, tuple comparison falls back to the
unorderable `Document` objects and the sort raises instead of returning a
result, as it does at the concrete two-candidate batch below where both
scores are 5. -/
theorem C9_rerank_total_iff_distinct_scores :
    (∀ (predict : List (String × String) → List Int) (query : String)
        (candidates : List Document),
        ((((predict (candidates.map fun d => (query, d.page_content))).zip
            candidates).map Prod.fst).Pairwise (· ≠ ·)) →
        ∃ out, rerankStep predict query candidates = .ok out) ∧
    rerankStep (fun _ => [5, 5]) "อ้อย" [diseaseChunk, soilChunk] =
      .error "TypeError: comparison not supported between Document instances" := by
  constructor
  · intro predict query candidates h
    cases he : candidates.isEmpty
    · obtain ⟨r, hr, _⟩ := pySortedRev_ok_of_pairwise _ h
      exact ⟨((r.map Prod.snd).take 4, 1), by simp [rerankStep, he, hr]⟩
    · exact ⟨([], 0), by simp [rerankStep, he]⟩
  · rfl

/-- Witness for C9 at a concrete two-candidate batch with distinct
scores. -/
theorem C9_rerank_total_iff_distinct_scores_witness :
    ∃ out, rerankStep (fun _ => [2, 1]) "อ้อย" [diseaseChunk, soilChunk] = .ok out :=
  C9_rerank_total_iff_distinct_scores.1 (fun _ => [2, 1]) "อ้อย"
    [diseaseChunk, soilChunk] (by decide)

/-- C10: the category filter is idempotent — filtering an already-filtered
(same category) candidate list returns the same list, for every category
argument (including the unset/empty passthrough cases). -/
theorem C10_category_filter_idempotent (category : Option String)
    (candidates : List Document) :
    categoryFilterStep category (categoryFilterStep category candidates) =
      categoryFilterStep category candidates := by
  match category with
  | none => rfl
  | some c =>
    by_cases hc : c = "" <;>
      simp [categoryFilterStep, hc, List.filter_filter]

end MitrPhol
